import Mathlib

/-!
Verification of the `synth` oscillator (`src/oscillator.rs`).

The oscillator owns a mutable `phase`, a waveform selector, a warble
intensity `gaussian_perc` and two envelopes.  Its two operations are
`freq_at_ratio` (pure frequency resolution) and `amp_at_ratio` (the single
mutating per-sample step).  The envelope evaluator, the waveform shape
library, the pitch-conversion utilities and the gaussian sample generator
are external crates consumed through narrow interfaces; they are kept
abstract here as function-valued fields of an `Externals` record.  All
floating-point scalars are modelled as rationals.
-/

namespace Synth

/-- Waveform variants.  Modelled from the spec: the waveform shape library
is an external crate; the spec describes a closed variant set with sine,
standard periodic shapes and a noise-walk variant.  The oscillator code only
tests equality against the noise-walk variant. -/
inductive Waveform
  | Sine
  | Saw
  | Square
  | NoiseWalk
  deriving DecidableEq, Repr

/-- Envelope.  Modelled from the spec: the envelope evaluator is an external
crate exposing a pure map `y(ratio) -> real` from a time ratio to a scalar. -/
structure Envelope where
  y : ℚ → ℚ

/-- `Envelope::zeroed()`.  Modelled from the spec: the zero/flat envelope. -/
def Envelope.zeroed : Envelope := ⟨fun _ => 0⟩

/-- The external collaborators used by the oscillator: the pitch-conversion
utilities (`pitch::Perc(p).hz()`, `pitch::Perc(p).mel()`, `pitch::Mel(m).hz()`,
`pitch::ScaledPerc(p, e).perc()`), the waveform amplitude lookup
(`waveform.amp_at_phase(phase)`) and the gaussian sample generator
(`gaussian::gen(mean, variance)`).  All are external crates; each is kept
abstract as an arbitrary function. -/
structure Externals where
  percHz : ℚ → ℚ
  percMel : ℚ → ℚ
  melHz : ℚ → ℚ
  scaledPerc : ℚ → ℚ → ℚ
  ampAtPhase : Waveform → ℚ → ℚ
  gaussianGen : ℚ → ℚ → ℚ

/-- The `Oscillator` struct: private `phase`, public `waveform`,
`gaussian_perc`, `amplitude` envelope and `frequency` envelope. -/
structure Oscillator where
  phase : ℚ
  waveform : Waveform
  gaussian_perc : ℚ
  amplitude : Envelope
  frequency : Envelope

/-- `Oscillator::new()`: sine waveform, zero phase, zeroed envelopes, zero
warble. -/
def Oscillator.new : Oscillator :=
  { waveform := Waveform.Sine
    phase := 0
    amplitude := Envelope.zeroed
    frequency := Envelope.zeroed
    gaussian_perc := 0 }

/-- `Oscillator::waveform(self, waveform)` builder method. -/
def Oscillator.with_waveform (o : Oscillator) (waveform : Waveform) : Oscillator :=
  { o with waveform := waveform }

/-- `Oscillator::amplitude(self, amp_env)` builder method. -/
def Oscillator.with_amplitude (o : Oscillator) (amp_env : Envelope) : Oscillator :=
  { o with amplitude := amp_env }

/-- `Oscillator::frequency(self, freq_env)` builder method. -/
def Oscillator.with_frequency (o : Oscillator) (freq_env : Envelope) : Oscillator :=
  { o with frequency := freq_env }

/-- `Oscillator::warbliness(self, warbliness)` builder method. -/
def Oscillator.warbliness (o : Oscillator) (warbliness : ℚ) : Oscillator :=
  { o with gaussian_perc := warbliness }

/-- `Oscillator::freq_at_ratio(&self, ratio)`: read the raw pitch value from
the frequency envelope, rescale it through `ScaledPerc(freq, 0.6)` when the
waveform is the noise walk, then either perturb in mel space (when
`gaussian_perc > 0.0`) or convert directly to Hz. -/
def Oscillator.freq_at_ratio (ext : Externals) (o : Oscillator) (ratio : ℚ) : ℚ :=
  let freq0 := o.frequency.y ratio
  let freq := if o.waveform = Waveform.NoiseWalk then ext.scaledPerc freq0 (3/5) else freq0
  let hz :=
    if 0 < o.gaussian_perc then
      let mels := ext.percMel freq
      let gaus_mels := mels + ext.gaussianGen (1/2) (o.gaussian_perc ^ 2) * 1000 - 500
      ext.melHz gaus_mels
    else
      ext.percHz freq
  hz

/-- Method-call view of `freq_at_ratio`: a `&self` method returns its result
together with the receiver, whose fields the body never assigns. -/
def Oscillator.freq_at_ratio_call (ext : Externals) (o : Oscillator) (ratio : ℚ) :
    ℚ × Oscillator :=
  (o.freq_at_ratio ext ratio, o)

/-- `Oscillator::amp_at_ratio(&mut self, ratio, note_freq_multi, sample_hz)`:
capture the phase, resolve the frequency, advance the stored phase by
`freq / sample_hz`, and return the waveform amplitude at the captured phase
times the amplitude envelope value.  Returns the sample together with the
updated oscillator. -/
def Oscillator.amp_at_ratio (ext : Externals) (o : Oscillator)
    (ratio note_freq_multi sample_hz : ℚ) : ℚ × Oscillator :=
  let phase := o.phase
  let freqAtRatio := o.freq_at_ratio ext ratio * note_freq_multi
  let self2 : Oscillator := { o with phase := phase + freqAtRatio / sample_hz }
  (ext.ampAtPhase self2.waveform phase * self2.amplitude.y ratio, self2)

/-- The warble-or-convert tail of `freq_at_ratio` (steps after the
noise-walk rescale): mel perturbation when the warble knob is positive,
direct percentage-to-Hz conversion otherwise. -/
def warbleHz (ext : Externals) (gaussian_perc freq : ℚ) : ℚ :=
  if 0 < gaussian_perc then
    ext.melHz (ext.percMel freq + ext.gaussianGen (1/2) (gaussian_perc ^ 2) * 1000 - 500)
  else
    ext.percHz freq

/-- A concrete instantiation of the external collaborators, used to evaluate
the oscillator on closed inputs. -/
def extC : Externals where
  percHz := fun p => p + 440
  percMel := fun p => 2 * p
  melHz := fun m => m - 1
  scaledPerc := fun p e => p * e
  ampAtPhase := fun w ph => match w with | Waveform.Sine => ph + 1 | _ => ph
  gaussianGen := fun m v => m + v

/-- A second instantiation agreeing with `extC` on the percentage-to-Hz
conversion and the nonlinear rescale, but with a different gaussian
generator, mel conversions and amplitude lookup. -/
def extD : Externals :=
  { extC with
      gaussianGen := fun _ _ => 999
      percMel := fun _ => 5
      melHz := fun _ => 7
      ampAtPhase := fun _ _ => 11 }

/-- C1: `amp_at_ratio` sets the stored phase to
`phase₀ + (freq_at_ratio(ratio) * note_freq_multi) / sample_hz`, leaves the
waveform, warble intensity and both envelopes unchanged, and returns the
waveform amplitude at the pre-update phase times the amplitude envelope
value at the ratio. -/
theorem amp_at_ratio_spec (ext : Externals) (o : Oscillator) (ratio m sr : ℚ) :
    (o.amp_at_ratio ext ratio m sr).2.phase
        = o.phase + o.freq_at_ratio ext ratio * m / sr
      ∧ (o.amp_at_ratio ext ratio m sr).2.waveform = o.waveform
      ∧ (o.amp_at_ratio ext ratio m sr).2.gaussian_perc = o.gaussian_perc
      ∧ (o.amp_at_ratio ext ratio m sr).2.amplitude = o.amplitude
      ∧ (o.amp_at_ratio ext ratio m sr).2.frequency = o.frequency
      ∧ (o.amp_at_ratio ext ratio m sr).1
        = ext.ampAtPhase o.waveform o.phase * o.amplitude.y ratio :=
  ⟨rfl, rfl, rfl, rfl, rfl, rfl⟩

/-- C3: the pitch value fed to the warble-or-convert tail is the
`ScaledPerc`-rescaled envelope value (exponent `0.6 = 3/5`) exactly when the
waveform is the noise-walk variant, and the raw envelope value for every
other variant. -/
theorem freq_at_ratio_noise_walk (ext : Externals) (o : Oscillator) (ratio : ℚ) :
    (o.waveform = Waveform.NoiseWalk →
      o.freq_at_ratio ext ratio
        = warbleHz ext o.gaussian_perc (ext.scaledPerc (o.frequency.y ratio) (3/5)))
    ∧ (o.waveform ≠ Waveform.NoiseWalk →
      o.freq_at_ratio ext ratio = warbleHz ext o.gaussian_perc (o.frequency.y ratio)) := by
  constructor <;> intro h <;> simp [Oscillator.freq_at_ratio, warbleHz, h]

/-- Witness for C3 at concrete inputs: a noise-walk oscillator goes through
the rescale, a sine oscillator does not. -/
theorem freq_at_ratio_noise_walk_witness :
    ((Oscillator.new.with_waveform Waveform.NoiseWalk).freq_at_ratio extC 0
      = warbleHz extC 0 (extC.scaledPerc 0 (3/5)))
    ∧ (Oscillator.new.freq_at_ratio extC 0 = warbleHz extC 0 0) :=
  ⟨(freq_at_ratio_noise_walk extC (Oscillator.new.with_waveform Waveform.NoiseWalk) 0).1 rfl,
   (freq_at_ratio_noise_walk extC Oscillator.new 0).2 (by decide)⟩

/-- C8: `freq_at_ratio` is a pure read: the receiver it hands back has the
same phase, waveform, warble intensity and envelopes, and the returned value
is the resolved frequency. -/
theorem freq_at_ratio_pure (ext : Externals) (o : Oscillator) (ratio : ℚ) :
    (o.freq_at_ratio_call ext ratio).2.phase = o.phase
    ∧ (o.freq_at_ratio_call ext ratio).2.waveform = o.waveform
    ∧ (o.freq_at_ratio_call ext ratio).2.gaussian_perc = o.gaussian_perc
    ∧ (o.freq_at_ratio_call ext ratio).2.amplitude = o.amplitude
    ∧ (o.freq_at_ratio_call ext ratio).2.frequency = o.frequency
    ∧ (o.freq_at_ratio_call ext ratio).1 = o.freq_at_ratio ext ratio :=
  ⟨rfl, rfl, rfl, rfl, rfl, rfl⟩

/-- C9: each builder method sets exactly its designated field to the supplied
value and copies the other four fields, including the private phase. -/
theorem builders_spec (o : Oscillator) (w : Waveform) (a f : Envelope) (g : ℚ) :
    ((o.with_waveform w).waveform = w
      ∧ (o.with_waveform w).phase = o.phase
      ∧ (o.with_waveform w).gaussian_perc = o.gaussian_perc
      ∧ (o.with_waveform w).amplitude = o.amplitude
      ∧ (o.with_waveform w).frequency = o.frequency)
    ∧ ((o.with_amplitude a).amplitude = a
      ∧ (o.with_amplitude a).phase = o.phase
      ∧ (o.with_amplitude a).waveform = o.waveform
      ∧ (o.with_amplitude a).gaussian_perc = o.gaussian_perc
      ∧ (o.with_amplitude a).frequency = o.frequency)
    ∧ ((o.with_frequency f).frequency = f
      ∧ (o.with_frequency f).phase = o.phase
      ∧ (o.with_frequency f).waveform = o.waveform
      ∧ (o.with_frequency f).gaussian_perc = o.gaussian_perc
      ∧ (o.with_frequency f).amplitude = o.amplitude)
    ∧ ((o.warbliness g).gaussian_perc = g
      ∧ (o.warbliness g).phase = o.phase
      ∧ (o.warbliness g).waveform = o.waveform
      ∧ (o.warbliness g).amplitude = o.amplitude
      ∧ (o.warbliness g).frequency = o.frequency) :=
  ⟨⟨rfl, rfl, rfl, rfl, rfl⟩, ⟨rfl, rfl, rfl, rfl, rfl⟩,
   ⟨rfl, rfl, rfl, rfl, rfl⟩, ⟨rfl, rfl, rfl, rfl, rfl⟩⟩

/-- C2: with a positive warble knob, the resolved frequency is the mel-to-Hz
conversion of the mel value of the (possibly noise-walk-rescaled) envelope
pitch, shifted by `sample * 1000 - 500` where the sample is one gaussian
draw with mean `0.5` and variance `gaussian_perc ^ 2`. -/
theorem freq_at_ratio_warble (ext : Externals) (o : Oscillator) (ratio : ℚ)
    (h : 0 < o.gaussian_perc) :
    o.freq_at_ratio ext ratio
      = ext.melHz (ext.percMel (if o.waveform = Waveform.NoiseWalk
            then ext.scaledPerc (o.frequency.y ratio) (3/5) else o.frequency.y ratio)
          + (ext.gaussianGen (1/2) (o.gaussian_perc ^ 2) * 1000 - 500)) := by
  simp only [Oscillator.freq_at_ratio, if_pos h]
  ring_nf

/-- Witness for C2 at a warbly oscillator with `gaussian_perc = 1/2`. -/
theorem freq_at_ratio_warble_witness :
    0 < ((1 : ℚ)/2)
    ∧ (Oscillator.new.warbliness (1/2)).freq_at_ratio extC 0
      = extC.melHz (extC.percMel 0 + (extC.gaussianGen (1/2) (((1 : ℚ)/2) ^ 2) * 1000 - 500)) :=
  ⟨one_half_pos, freq_at_ratio_warble extC (Oscillator.new.warbliness (1/2)) 0 one_half_pos⟩

/-- C4: with warble disabled (`gaussian_perc = 0`), `freq_at_ratio` depends
only on the frequency envelope, the waveform and the pure pitch-conversion
utilities: two calls on oscillators with equal frequency envelopes and equal
waveforms agree even when the gaussian generator (and the mel conversions it
would feed) differ. -/
theorem freq_at_ratio_det (e1 e2 : Externals) (o1 o2 : Oscillator) (ratio : ℚ)
    (hhz : e1.percHz = e2.percHz) (hsp : e1.scaledPerc = e2.scaledPerc)
    (hf : o1.frequency = o2.frequency) (hw : o1.waveform = o2.waveform)
    (h1 : o1.gaussian_perc = 0) (h2 : o2.gaussian_perc = 0) :
    o1.freq_at_ratio e1 ratio = o2.freq_at_ratio e2 ratio := by
  simp [Oscillator.freq_at_ratio, h1, h2, hhz, hsp, hf, hw]

/-- Witness for C4: `extC` and `extD` share the percentage conversions but
have different gaussian generators, and the amplitude envelope is also
irrelevant. -/
theorem freq_at_ratio_det_witness :
    extC.percHz = extD.percHz ∧ extC.scaledPerc = extD.scaledPerc
    ∧ Oscillator.new.freq_at_ratio extC 0
        = (Oscillator.new.with_amplitude ⟨fun _ => 9⟩).freq_at_ratio extD 0 :=
  ⟨rfl, rfl,
   freq_at_ratio_det extC extD Oscillator.new (Oscillator.new.with_amplitude ⟨fun _ => 9⟩)
     0 rfl rfl rfl rfl rfl rfl⟩

/-- Counterexample to C5 as stated: a call to `amp_at_ratio` with a negative
transpose multiplier strictly decreases the stored phase, so the phase is
not monotonically increasing over arbitrary calls. -/
theorem phase_monotone_counterexample :
    (Oscillator.new.amp_at_ratio extC 0 (-1) 1).2.phase < Oscillator.new.phase := by
  norm_num [Oscillator.amp_at_ratio, Oscillator.freq_at_ratio, Oscillator.new,
    Envelope.zeroed, extC]

/-- C5 (amended): the phase starts at `0` at construction; each
`amp_at_ratio` call adds `(resolved frequency * multiplier) / sample rate`
to it, hence does not decrease it whenever that increment is nonnegative;
and no builder method changes the phase. -/
theorem phase_evolution (ext : Externals) (o : Oscillator) (ratio m sr : ℚ)
    (w : Waveform) (a f : Envelope) (g : ℚ)
    (h : 0 ≤ o.freq_at_ratio ext ratio * m / sr) :
    Oscillator.new.phase = 0
    ∧ (o.amp_at_ratio ext ratio m sr).2.phase
        = o.phase + o.freq_at_ratio ext ratio * m / sr
    ∧ o.phase ≤ (o.amp_at_ratio ext ratio m sr).2.phase
    ∧ (o.with_waveform w).phase = o.phase
    ∧ (o.with_amplitude a).phase = o.phase
    ∧ (o.with_frequency f).phase = o.phase
    ∧ (o.warbliness g).phase = o.phase := by
  refine ⟨rfl, rfl, ?_, rfl, rfl, rfl, rfl⟩
  have hq : (o.amp_at_ratio ext ratio m sr).2.phase
      = o.phase + o.freq_at_ratio ext ratio * m / sr := rfl
  rw [hq]
  linarith

/-- Witness for C5 (amended) at a concrete nonnegative increment. -/
theorem phase_evolution_witness :
    0 ≤ Oscillator.new.freq_at_ratio extC 0 * 1 / 1
    ∧ Oscillator.new.phase ≤ (Oscillator.new.amp_at_ratio extC 0 1 1).2.phase :=
  ⟨by norm_num [Oscillator.freq_at_ratio, Oscillator.new, Envelope.zeroed, extC],
   (phase_evolution extC Oscillator.new 0 1 1 Waveform.Sine Envelope.zeroed
     Envelope.zeroed 0
     (by norm_num [Oscillator.freq_at_ratio, Oscillator.new, Envelope.zeroed, extC])).2.2.1⟩

/-- C6: with warble disabled, the phase increment of one `amp_at_ratio` call
is linear in the transpose multiplier: multiplier `k * m` produces exactly
`k` times the increment produced by multiplier `m`. -/
theorem transpose_scaling (ext : Externals) (o : Oscillator) (ratio m k sr : ℚ)
    (h : o.gaussian_perc = 0) :
    (o.amp_at_ratio ext ratio (k * m) sr).2.phase - o.phase
      = k * ((o.amp_at_ratio ext ratio m sr).2.phase - o.phase) := by
  show o.phase + o.freq_at_ratio ext ratio * (k * m) / sr - o.phase
      = k * (o.phase + o.freq_at_ratio ext ratio * m / sr - o.phase)
  ring

/-- Witness for C6 with `k = 2`, `m = 3`. -/
theorem transpose_scaling_witness :
    Oscillator.new.gaussian_perc = 0
    ∧ (Oscillator.new.amp_at_ratio extC 0 (2 * 3) 1).2.phase - Oscillator.new.phase
      = 2 * ((Oscillator.new.amp_at_ratio extC 0 3 1).2.phase - Oscillator.new.phase) :=
  ⟨rfl, transpose_scaling extC Oscillator.new 0 3 2 1 rfl⟩

/-- C7: holding the waveform, phase and the call arguments fixed, doubling
the amplitude envelope value at the ratio doubles the returned sample, and
in particular doubles its magnitude. -/
theorem amp_env_doubling (ext : Externals) (o1 o2 : Oscillator) (ratio m sr : ℚ)
    (hp : o2.phase = o1.phase) (hw : o2.waveform = o1.waveform)
    (ha : o2.amplitude.y ratio = 2 * o1.amplitude.y ratio) :
    (o2.amp_at_ratio ext ratio m sr).1 = 2 * (o1.amp_at_ratio ext ratio m sr).1
    ∧ |(o2.amp_at_ratio ext ratio m sr).1| = 2 * |(o1.amp_at_ratio ext ratio m sr).1| := by
  have h : (o2.amp_at_ratio ext ratio m sr).1 = 2 * (o1.amp_at_ratio ext ratio m sr).1 := by
    show ext.ampAtPhase o2.waveform o2.phase * o2.amplitude.y ratio
        = 2 * (ext.ampAtPhase o1.waveform o1.phase * o1.amplitude.y ratio)
    rw [hp, hw, ha]
    ring
  refine ⟨h, ?_⟩
  rw [h, abs_mul]
  norm_num

/-- Witness for C7: envelopes returning `3` and `6`. -/
theorem amp_env_doubling_witness :
    (Oscillator.new.with_amplitude ⟨fun _ => 6⟩).amplitude.y 0
      = 2 * (Oscillator.new.with_amplitude ⟨fun _ => 3⟩).amplitude.y 0
    ∧ ((Oscillator.new.with_amplitude ⟨fun _ => 6⟩).amp_at_ratio extC 0 1 1).1
      = 2 * ((Oscillator.new.with_amplitude ⟨fun _ => 3⟩).amp_at_ratio extC 0 1 1).1 :=
  ⟨by norm_num [Oscillator.with_amplitude],
   (amp_env_doubling extC (Oscillator.new.with_amplitude ⟨fun _ => 3⟩)
     (Oscillator.new.with_amplitude ⟨fun _ => 6⟩) 0 1 1 rfl rfl
     (by norm_num [Oscillator.with_amplitude])).1⟩

/-- C10: a negative warble knob behaves exactly like a zero one, because the
warble branch is guarded by a strict `gaussian_perc > 0.0` test. -/
theorem negative_warble (ext : Externals) (o : Oscillator) (ratio : ℚ)
    (h : o.gaussian_perc < 0) :
    o.freq_at_ratio ext ratio = (o.warbliness 0).freq_at_ratio ext ratio := by
  simp [Oscillator.freq_at_ratio, Oscillator.warbliness, not_lt.mpr h.le]

/-- Witness for C10 at `gaussian_perc = -1`. -/
theorem negative_warble_witness :
    ((Oscillator.new.warbliness (-1)).gaussian_perc < 0)
    ∧ (Oscillator.new.warbliness (-1)).freq_at_ratio extC 0
      = ((Oscillator.new.warbliness (-1)).warbliness 0).freq_at_ratio extC 0 :=
  ⟨neg_one_lt_zero, negative_warble extC (Oscillator.new.warbliness (-1)) 0 neg_one_lt_zero⟩

end Synth
